import Mathlib

/-!
Verification of the DustDB server (`src/main.rs`) against its natural-language
specification.

The development shallowly embeds the request parser (`Request::parse`), the
response encoder (`Response::serialize`), the storage engine (`create`, `find`)
and the per-connection loop of `main` as executable Lean functions.

Modelling conventions:
* Rust's `str::splitn(n, ' ')` iterator is modelled as the list of substrings
  it yields (`splitn2`, `splitn3`); `iterator.next()` becomes successive
  indexing into that list.  Note that this iterator always yields at least one
  (possibly empty) substring, so its first `next()` is never `None`.
* A Rust panic (an `.unwrap()` applied to `None`) is the explicit `.crash`
  outcome of the corresponding result type.
* External collaborators (the `dustcfg` hex codec and UUID generator, the
  filesystem, `serde_json::from_str`, the `dustlog` logging calls) are not code
  of `src/main.rs`; they enter the model as parameters, or as data recorded in
  the state (`ScanFile` stores, next to a file's content, the outcome that
  `serde_json::from_str` produced for it).  The logic of `main.rs` itself —
  token splitting, dispatch, the scan loop, the order of `create`'s steps,
  the response strings — is embedded directly.
-/

/- ### Rust `str::splitn(_, ' ')` -/

/-- Helper for `splitFirst`: walk the character list until the first space,
accumulating the characters seen so far (in reverse). -/
def splitFirstAux : List Char → List Char → List Char × Option (List Char)
  | [], acc => (acc.reverse, none)
  | c :: cs, acc => if c = ' ' then (acc.reverse, some cs) else splitFirstAux cs (c :: acc)

/-- Split a string at its first space: `splitFirst "a b c" = ("a", some "b c")`,
`splitFirst "abc" = ("abc", none)`.  This is the elementary step of Rust's
`str::splitn(n, ' ')`. -/
def splitFirst (s : String) : String × Option String :=
  match splitFirstAux s.data [] with
  | (tok, none) => (⟨tok⟩, none)
  | (tok, some rest) => (⟨tok⟩, some ⟨rest⟩)

/-- Model of Rust `input.splitn(2, ' ')`: the list of substrings the iterator
yields (one or two of them; the second, when present, is the remainder of the
input verbatim).  The result is never empty: on input `""` it is `[""]`. -/
def splitn2 (s : String) : List String :=
  match splitFirst s with
  | (tok, none) => [tok]
  | (tok, some rest) => [tok, rest]

/-- Model of Rust `input.splitn(3, ' ')`: at most three substrings, the last
one taking the remainder of the input verbatim. -/
def splitn3 (s : String) : List String :=
  match splitFirst s with
  | (tok, none) => [tok]
  | (tok, some rest) =>
    match splitFirst rest with
    | (t2, none) => [tok, t2]
    | (t2, some r2) => [tok, t2, r2]

/-- Model of Rust `str::to_lowercase` as used on pile names (`main.rs` lines
56 and 85): lowercase every character. -/
def toLowercase (s : String) : String := ⟨s.data.map Char.toLower⟩

/- ### `Request` and `Request::parse` (`main.rs` lines 24-94) -/

/-- Model of the `Request` enum (`main.rs` lines 24-35). -/
inductive Request where
  | create (pile : String) (data : String)
  | ping
  | find (pile : String) (field : String) (compare : String)
deriving DecidableEq, Repr

/-- Outcome of `Request::parse`: `ok` / `err` mirror `Result<Request, String>`;
`crash` marks the control path on which the Rust code panics (an `.unwrap()`
applied to a `None` returned by `iterator.next()`). -/
inductive ParseOutcome where
  | ok (req : Request)
  | err (msg : String)
  | crash
deriving DecidableEq, Repr

/-- Model of `Request::parse` (`main.rs` lines 38-93).  The `splitn` iterators
are modelled by `splitn2` / `splitn3`; each `parts.next()` is the next index
into the yielded list.  The two `parts.next().unwrap()` calls (lines 42 and 62)
become `.crash` when the index is absent.  The arms answering `none` for index
0 (lines 47, 67 and 91 of the Rust source) are kept even though `splitn2` /
`splitn3` never return an empty list, exactly as those arms are unreachable in
the Rust code. -/
def Request.parse (input : String) : ParseOutcome :=
  match (splitn2 input).head? with
  | none => .err "Error parsing request, empty request"
  | some verb =>
    if verb = "CREATE" then
      match (splitn2 input).get? 1 with
      | none => .crash
      | some split_input =>
        match (splitn2 split_input).head? with
        | none => .err "CREATE must have a pile name specified"
        | some pile =>
          match (splitn2 split_input).get? 1 with
          | none => .err "CREATE must have data after the pile name"
          | some data => .ok (.create (toLowercase pile) data)
    else if verb = "PING" then .ok .ping
    else if verb = "FIND" then
      match (splitn2 input).get? 1 with
      | none => .crash
      | some split_input =>
        match (splitn3 split_input).head? with
        | none => .err "FIND must have a pile name specified"
        | some pile =>
          match (splitn3 split_input).get? 1 with
          | none => .err "FIND must have a field name after the pile name"
          | some field =>
            match (splitn3 split_input).get? 2 with
            | none => .err "FIND must have a compare name after the field name"
            | some compare => .ok (.find (toLowercase pile) field compare)
    else .err ("Error parsing request, unknown command: " ++ verb)

/- ### `Response` and `Response::serialize` (`main.rs` lines 97-128) -/

/-- Model of the `Response` enum (`main.rs` lines 97-106); `exit_code` is the
Rust `u8` (only the values 0 and 1 are ever constructed). -/
inductive Response where
  | ok (exit_code : Nat) (message : Option String)
  | error (exit_code : Nat) (msg : String)
deriving DecidableEq, Repr

/-- Model of `Response::serialize` (`main.rs` lines 109-127). -/
def Response.serialize : Response → String
  | .ok exit_code message =>
    toString exit_code ++ " " ++
      (match message with
       | none => ""
       | some message => message)
  | .error exit_code msg => toString exit_code ++ " Error: " ++ msg

/-- Model of `response_handler` (`main.rs` lines 242-281): the function only
writes the response to the log (`write_to_log`, an external side effect with no
influence on the returned value) and returns the response unchanged. -/
def response_handler (response : Response) : Response := response

/- ### JSON values and the `find` scan (`main.rs` lines 286-311) -/

/-- Model of `serde_json::Value` as far as `find` inspects it (`.get` on an
object and `.as_str`).  Object field lists are assumed key-unique, as
`serde_json` parsing produces. -/
inductive Json where
  | str (s : String)
  | num (n : Int)
  | bool (b : Bool)
  | null
  | arr (elems : List Json)
  | obj (fields : List (String × Json))

/-- Model of `serde_json::Value::get(field)`: field lookup on an object,
`none` on every other kind of value. -/
def Json.get (j : Json) (key : String) : Option Json :=
  match j with
  | .obj fields => fields.lookup key
  | _ => none

/-- Model of `serde_json::Value::as_str`: `some` exactly on strings. -/
def Json.asStr : Json → Option String
  | .str s => some s
  | _ => none

/-- One directory entry as the `find` loop observes it, in scan order:
either the `entry?` / `fs::read_to_string(..)?` step failed with an I/O error,
or the file was read to `content` and `parsed` records what
`serde_json::from_str(&content)` (an external library call) returned for it. -/
inductive ScanFile where
  | ioErr (e : String)
  | file (content : String) (parsed : Except String Json)

/-- Outcome of `find`: `ok`/`err` mirror `Result<String, io::Error>`; `crash`
marks the `value.as_str().unwrap()` panic (`main.rs` line 295) reached when the
matched field holds a non-string value. -/
inductive FindOutcome where
  | ok (hex : String)
  | err (e : String)
  | crash
deriving DecidableEq, Repr

/-- Model of the `for entry in fs::read_dir(dir_path)?` loop of `find`
(`main.rs` lines 290-300) followed by the fall-through `Ok(String::new())`
(line 310).  `enc` is the external `dustcfg::encode_utf8_to_hex`. -/
def findScan (enc : String → String) (field_name compare_name : String) :
    List ScanFile → FindOutcome
  | [] => .ok ""
  | .ioErr e :: _ => .err e
  | .file _ (.error e) :: _ => .err e
  | .file content (.ok json) :: rest =>
    match json.get field_name with
    | some value =>
      match value.asStr with
      | some s =>
        if s = compare_name then .ok (enc content)
        else findScan enc field_name compare_name rest
      | none => .crash
    | none => findScan enc field_name compare_name rest

/-- Model of `find` (`main.rs` lines 286-311).  `root` is the external
configuration value `get_env_var("DUST_DATA_STORAGE_PATH")`; `dir_view` is the
filesystem as `find` reads it: for a path, `none` when `Path::is_dir` is false
and otherwise the directory's entries in the order `fs::read_dir` yields
them. -/
def find (enc : String → String) (dir_view : String → Option (List ScanFile))
    (root pile_name field_name compare_name : String) : FindOutcome :=
  let pile_path := root ++ pile_name
  match dir_view pile_path with
  | some entries => findScan enc field_name compare_name entries
  | none => .ok ""

/- ### `create` (`main.rs` lines 322-354) -/

/-- Model of `create` (`main.rs` lines 322-354), parametric in a filesystem
state `σ`.  External collaborators are parameters: `decode_hex_to_utf8` and
`generate_v4_uuid` from `dustcfg`, and the two filesystem primitives
`create_dir_all` (`fs::create_dir_all`) and `fs_write` (`fs::write`), each
returning its `Result` together with the state it leaves behind (so a failed
primitive may still have changed the filesystem).  `root` and `ext` are the
configuration values `DUST_DATA_STORAGE_PATH` and `DUST_DATA_FMT`.  The order
of steps is that of the Rust source: UUID generation, hex decoding, directory
creation, file write. -/
def create {σ : Type}
    (root ext : String)
    (decode_hex_to_utf8 : String → Except String String)
    (generate_v4_uuid : String)
    (create_dir_all : σ → String → Except String Unit × σ)
    (fs_write : σ → String → String → Except String Unit × σ)
    (pile_name data_as_hex_string : String) (s : σ) : Except String String × σ :=
  let generated_uuid := generate_v4_uuid
  match decode_hex_to_utf8 data_as_hex_string with
  | .error e => (.error e, s)
  | .ok decoded_data_result =>
    let pile_path := root ++ pile_name
    match create_dir_all s pile_path with
    | (.error e, s1) => (.error e, s1)
    | (.ok _, s1) =>
      let file_path := pile_path ++ "/" ++ generated_uuid ++ "." ++ ext
      match fs_write s1 file_path decoded_data_result with
      | (.error e, s2) => (.error e, s2)
      | (.ok _, s2) => (.ok generated_uuid, s2)

/- ### `handle_request` (`main.rs` lines 183-240) and the connection loop -/

/-- Outcome of `handle_request`: either a `Response` is produced, or the Rust
code panics (`crash`) and the spawned task aborts without a response.  The
`capture_request_log` calls are external logging side effects and do not enter
the model. -/
inductive HandleOutcome where
  | resp (r : Response)
  | crash
deriving DecidableEq, Repr

/-- Model of `handle_request` (`main.rs` lines 183-240), threading the
filesystem state `σ` and drawing the same external parameters as `create` and
`find`.  A `.crash` of the parser or of `find` propagates: the Rust panic
unwinds out of `handle_request`. -/
def handle_request {σ : Type}
    (root ext : String)
    (decode_hex_to_utf8 : String → Except String String)
    (generate_v4_uuid : String)
    (create_dir_all : σ → String → Except String Unit × σ)
    (fs_write : σ → String → String → Except String Unit × σ)
    (dir_view : σ → String → Option (List ScanFile))
    (enc : String → String)
    (s : σ) (line : String) : HandleOutcome × σ :=
  match Request.parse line with
  | .err e => (.resp (response_handler (.error 1 e)), s)
  | .crash => (.crash, s)
  | .ok .ping => (.resp (response_handler (.ok 0 none)), s)
  | .ok (.create pile data) =>
    match create root ext decode_hex_to_utf8 generate_v4_uuid
        create_dir_all fs_write pile data s with
    | (.ok generated_uuid, s2) =>
      (.resp (response_handler (.ok 0 (some generated_uuid))), s2)
    | (.error e, s2) =>
      (.resp (response_handler (.error 1 ("Error creating database entry: " ++ e))), s2)
  | .ok (.find pile field compare) =>
    match find enc (dir_view s) root pile field compare with
    | .ok encoded_json_data =>
      (.resp (response_handler (.ok 0 (some encoded_json_data))), s)
    | .err e =>
      (.resp (response_handler (.error 1 ("Error finding database entry: " ++ e))), s)
    | .crash => (.crash, s)

/-- Model of the per-connection loop spawned by `main` (`main.rs` lines
147-176).  The input is the stream of line-decode results the `Framed` codec
yields, in order; the output is the list of response lines written back.  An
`Ok(line)` is handled (a `crash` of `handle_request` aborts the task, writing
nothing) and the loop then `break`s; an `Err(_)` decode failure is logged and
the loop continues with the next result. -/
def connection_loop (handle : String → HandleOutcome) :
    List (Except String String) → List String
  | [] => []
  | .ok line :: _ =>
    match handle line with
    | .resp r => [r.serialize]
    | .crash => []
  | .error _ :: rest => connection_loop handle rest

/- ### Predicates used by the `find` theorems -/

/-- A scanned file that the `find` loop passes over, continuing the scan: it
parsed as JSON and the named field is either absent or holds a string value
different from the compare value. -/
def passedOver (field compare : String) : ScanFile → Bool
  | .file _ (.ok json) =>
    match json.get field with
    | none => true
    | some value =>
      match value.asStr with
      | some s => if s = compare then false else true
      | none => false
  | _ => false

/- ### Helper lemmas about `splitFirst` -/

theorem string_data_append (a b : String) : (a ++ b).data = a.data ++ b.data := rfl

theorem splitFirstAux_append (l r acc : List Char) (h : ' ' ∉ l) :
    splitFirstAux (l ++ ' ' :: r) acc = (acc.reverse ++ l, some r) := by
  induction l generalizing acc with
  | nil => simp [splitFirstAux]
  | cons c cs ih =>
    have hc : c ≠ ' ' := fun hc => h (hc ▸ List.mem_cons_self c cs)
    have hcs : ' ' ∉ cs := fun hm => h (List.mem_cons_of_mem c hm)
    simp [splitFirstAux, hc, ih (c :: acc) hcs]

theorem splitFirstAux_no_space (l acc : List Char) (h : ' ' ∉ l) :
    splitFirstAux l acc = (acc.reverse ++ l, none) := by
  induction l generalizing acc with
  | nil => simp [splitFirstAux]
  | cons c cs ih =>
    have hc : c ≠ ' ' := fun hc => h (hc ▸ List.mem_cons_self c cs)
    have hcs : ' ' ∉ cs := fun hm => h (List.mem_cons_of_mem c hm)
    simp [splitFirstAux, hc, ih (c :: acc) hcs]

theorem splitFirst_of_data (s : String) (l r : List Char) (hl : ' ' ∉ l)
    (hdata : s.data = l ++ ' ' :: r) : splitFirst s = (⟨l⟩, some ⟨r⟩) := by
  unfold splitFirst
  rw [hdata, splitFirstAux_append l r [] hl]
  rfl

theorem splitFirst_no_space (s : String) (h : ' ' ∉ s.data) : splitFirst s = (s, none) := by
  unfold splitFirst
  rw [splitFirstAux_no_space s.data [] h]
  rfl

theorem parse_create_of_tokens (p d : String) (hp : ' ' ∉ p.data) :
    Request.parse ("CREATE " ++ p ++ " " ++ d) = .ok (.create (toLowercase p) d) := by
  have hd : ("CREATE " ++ p ++ " " ++ d).data =
      "CREATE".data ++ ' ' :: (p.data ++ ' ' :: d.data) := by
    simp only [string_data_append, List.append_assoc]
    rfl
  have h1 : splitFirst ("CREATE " ++ p ++ " " ++ d) =
      ("CREATE", some ⟨p.data ++ ' ' :: d.data⟩) :=
    splitFirst_of_data _ "CREATE".data _ (by decide) hd
  have h3 : splitFirst (⟨p.data ++ ' ' :: d.data⟩ : String) = (p, some d) :=
    splitFirst_of_data _ p.data d.data hp rfl
  have h2 : splitn2 ("CREATE " ++ p ++ " " ++ d) = ["CREATE", ⟨p.data ++ ' ' :: d.data⟩] := by
    unfold splitn2
    rw [h1]
  have h4 : splitn2 (⟨p.data ++ ' ' :: d.data⟩ : String) = [p, d] := by
    unfold splitn2
    rw [h3]
  unfold Request.parse
  rw [h2]
  simp [h4]

theorem parse_find_of_tokens (p f c : String) (hp : ' ' ∉ p.data) (hf : ' ' ∉ f.data) :
    Request.parse ("FIND " ++ p ++ " " ++ f ++ " " ++ c) = .ok (.find (toLowercase p) f c) := by
  have hd : ("FIND " ++ p ++ " " ++ f ++ " " ++ c).data =
      "FIND".data ++ ' ' :: (p.data ++ ' ' :: (f.data ++ ' ' :: c.data)) := by
    simp only [string_data_append, List.append_assoc]
    rfl
  have h1 : splitFirst ("FIND " ++ p ++ " " ++ f ++ " " ++ c) =
      ("FIND", some ⟨p.data ++ ' ' :: (f.data ++ ' ' :: c.data)⟩) :=
    splitFirst_of_data _ "FIND".data _ (by decide) hd
  have h2 : splitn2 ("FIND " ++ p ++ " " ++ f ++ " " ++ c) =
      ["FIND", ⟨p.data ++ ' ' :: (f.data ++ ' ' :: c.data)⟩] := by
    unfold splitn2
    rw [h1]
  have h3 : splitFirst (⟨p.data ++ ' ' :: (f.data ++ ' ' :: c.data)⟩ : String) =
      (p, some ⟨f.data ++ ' ' :: c.data⟩) :=
    splitFirst_of_data _ p.data _ hp rfl
  have h4 : splitFirst (⟨f.data ++ ' ' :: c.data⟩ : String) = (f, some c) :=
    splitFirst_of_data _ f.data c.data hf rfl
  have h5 : splitn3 (⟨p.data ++ ' ' :: (f.data ++ ' ' :: c.data)⟩ : String) = [p, f, c] := by
    unfold splitn3
    simp [h3, h4]
  unfold Request.parse
  rw [h2]
  simp [h5]

/- ### Claim theorems -/

/-- C1: the claim says request handling always terminates with a one-line
response and never panics.  The code violates this: on the request line
`CREATE` the parser panics (`parts.next().unwrap()` on `None`, `main.rs` line
42), and a FIND whose matched field holds a non-string value panics in `find`
(`value.as_str().unwrap()`, line 295).  This theorem evaluates the model at
both failing inputs: `handle_request` ends in the `crash` outcome (the spawned
task aborts with no response) instead of producing a response. -/
theorem handle_request_crashes_on_bare_create_and_nonstring_field :
    handle_request (σ := Unit) "/dust_data/" "json"
        (fun _ => Except.error "decode failure") "uuid-0"
        (fun s _ => (Except.ok (), s)) (fun s _ _ => (Except.ok (), s))
        (fun _ _ => none) (fun s => s) () "CREATE"
      = (.crash, ())
    ∧ handle_request (σ := Unit) "/dust_data/" "json"
        (fun _ => Except.error "decode failure") "uuid-0"
        (fun s _ => (Except.ok (), s)) (fun s _ _ => (Except.ok (), s))
        (fun _ _ => some [ScanFile.file "record-body" (Except.ok (Json.obj [("age", Json.num 42)]))])
        (fun s => s) () "FIND users age 42"
      = (.crash, ()) := by
  constructor <;> rfl

/-- C2: the claim says parsing the line `CREATE` (verb alone) returns a parse
error mentioning the missing pile name.  The code instead panics: Rust's
`splitn(2, ' ')` yields only the single substring `CREATE`, so the second
`parts.next()` is `None` and the `.unwrap()` at `main.rs` line 42 aborts; the
`"CREATE must have a pile name specified"` arm (line 47) is unreachable. -/
theorem parse_bare_create_crashes : Request.parse "CREATE" = .crash := by rfl

/-- C3: the claim says the empty input line yields the parse error
`"empty request"`.  In the code that arm (`main.rs` line 91) is dead: on `""`
Rust's `splitn(2, ' ')` still yields one substring, the empty one, so the
first `parts.next()` is `Some("")` and parsing falls into the unknown-command
arm with an empty verb. -/
theorem parse_empty_line_is_unknown_command :
    Request.parse "" = .err "Error parsing request, unknown command: " := by rfl

/-- C4: `find` on a pile whose directory does not exist (`Path::is_dir` false,
modelled by `dir_view` returning `none` for the pile path) succeeds with the
empty result for every field and compare value, and the enclosing success
response serializes to the wire line `0 `. -/
theorem find_nonexistent_pile_ok_empty
    (enc : String → String) (dir_view : String → Option (List ScanFile))
    (root pile field compare : String)
    (h : dir_view (root ++ pile) = none) :
    find enc dir_view root pile field compare = .ok ""
    ∧ Response.serialize (.ok 0 (some "")) = "0 " := by
  refine ⟨?_, rfl⟩
  simp only [find, h]

/-- Witness for C4 at a concrete input: an empty filesystem view, pile
`users`. -/
theorem find_nonexistent_pile_ok_empty_witness :
    find (fun s => s) (fun _ => none) "/dust_data/" "users" "email" "a@b.c" = .ok ""
    ∧ Response.serialize (.ok 0 (some "")) = "0 " :=
  find_nonexistent_pile_ok_empty (fun s => s) (fun _ => none)
    "/dust_data/" "users" "email" "a@b.c" rfl

/-- A scanned file that is passed over does not change the outcome of the
scan: the loop continues with the remaining entries. -/
theorem findScan_cons_passed (enc : String → String) (field compare : String)
    (f : ScanFile) (rest : List ScanFile)
    (hf : passedOver field compare f = true) :
    findScan enc field compare (f :: rest) = findScan enc field compare rest := by
  cases f with
  | ioErr e => simp [passedOver] at hf
  | file content parsed =>
    cases parsed with
    | error e => simp [passedOver] at hf
    | ok json =>
      cases hg : json.get field with
      | none => simp [findScan, hg]
      | some v =>
        cases hv : v.asStr with
        | none => simp [passedOver, hg, hv] at hf
        | some s =>
          have hs : ¬s = compare := by
            intro hcontra
            simp [passedOver, hg, hv, hcontra] at hf
          simp [findScan, hg, hv, hs]

/-- Entries that are passed over may be dropped from the front of a scan. -/
theorem findScan_skip (enc : String → String) (field compare : String)
    (pre tail : List ScanFile)
    (hpre : ∀ f ∈ pre, passedOver field compare f = true) :
    findScan enc field compare (pre ++ tail) = findScan enc field compare tail := by
  induction pre with
  | nil => rfl
  | cons f fs ih =>
    rw [List.cons_append,
      findScan_cons_passed enc field compare f (fs ++ tail) (hpre f (List.mem_cons_self f fs))]
    exact ih fun g hg => hpre g (List.mem_cons_of_mem f hg)

/-- C5: when the directory scan reaches a first entry whose named field holds a
string equal (exactly, case-sensitively) to the compare value, having passed
over only entries whose field was absent or held a different string, `find`
returns the hex encoding (`enc`) of that entry's full original content — for
every continuation `rest` of the scan, i.e. the scan short-circuits at the
matching file and later entries are never read. -/
theorem find_returns_first_match
    (enc : String → String) (dir_view : String → Option (List ScanFile))
    (root pile field compare : String)
    (pre rest : List ScanFile) (content : String) (json v : Json)
    (hview : dir_view (root ++ pile) =
      some (pre ++ ScanFile.file content (Except.ok json) :: rest))
    (hpre : ∀ f ∈ pre, passedOver field compare f = true)
    (hget : json.get field = some v) (hstr : v.asStr = some compare) :
    find enc dir_view root pile field compare = .ok (enc content) := by
  simp only [find, hview]
  rw [findScan_skip enc field compare pre _ hpre]
  simp [findScan, hget, hstr]

/-- Witness for C5 at concrete inputs: the pile holds a record with the field
absent, a record whose field value is a different string, the matching record,
and an unreadable later entry which the short-circuit never touches. -/
theorem find_returns_first_match_witness :
    (∀ f ∈ [ScanFile.file "\x7b\"age\":30\x7d" (Except.ok (Json.obj [("age", Json.num 30)])),
            ScanFile.file "\x7b\"name\":\"bob\"\x7d" (Except.ok (Json.obj [("name", Json.str "bob")]))],
        passedOver "name" "alice" f = true)
    ∧ find (fun s => s)
        (fun path =>
          if path = "/dust_data/users" then
            some [ScanFile.file "\x7b\"age\":30\x7d" (Except.ok (Json.obj [("age", Json.num 30)])),
                  ScanFile.file "\x7b\"name\":\"bob\"\x7d" (Except.ok (Json.obj [("name", Json.str "bob")])),
                  ScanFile.file "\x7b\"name\":\"alice\"\x7d" (Except.ok (Json.obj [("name", Json.str "alice")])),
                  ScanFile.ioErr "unreadable later entry"]
          else none)
        "/dust_data/" "users" "name" "alice"
      = .ok "\x7b\"name\":\"alice\"\x7d" :=
  ⟨by decide,
   find_returns_first_match (fun s => s) _ "/dust_data/" "users" "name" "alice"
     [ScanFile.file "\x7b\"age\":30\x7d" (Except.ok (Json.obj [("age", Json.num 30)])),
      ScanFile.file "\x7b\"name\":\"bob\"\x7d" (Except.ok (Json.obj [("name", Json.str "bob")]))]
     [ScanFile.ioErr "unreadable later entry"]
     "\x7b\"name\":\"alice\"\x7d" (Json.obj [("name", Json.str "alice")]) (Json.str "alice")
     rfl (by decide) rfl rfl⟩

/-- C6: if the scan reaches a file that `serde_json::from_str` rejects before
any match was found (all earlier entries were passed over), `find` aborts the
whole request with that error — it does not skip the malformed record,
whatever entries follow it. -/
theorem find_aborts_on_malformed_record
    (enc : String → String) (dir_view : String → Option (List ScanFile))
    (root pile field compare : String)
    (pre rest : List ScanFile) (content e : String)
    (hview : dir_view (root ++ pile) =
      some (pre ++ ScanFile.file content (Except.error e) :: rest))
    (hpre : ∀ f ∈ pre, passedOver field compare f = true) :
    find enc dir_view root pile field compare = .err e := by
  simp only [find, hview]
  rw [findScan_skip enc field compare pre _ hpre]
  rfl

/-- Witness for C6 at concrete inputs: one passed-over record, then a
malformed record, then a would-be matching record that is never reached. -/
theorem find_aborts_on_malformed_record_witness :
    (∀ f ∈ [ScanFile.file "\x7b\"name\":\"bob\"\x7d" (Except.ok (Json.obj [("name", Json.str "bob")]))],
        passedOver "name" "alice" f = true)
    ∧ find (fun s => s)
        (fun path =>
          if path = "/dust_data/users" then
            some [ScanFile.file "\x7b\"name\":\"bob\"\x7d" (Except.ok (Json.obj [("name", Json.str "bob")])),
                  ScanFile.file "not json at all" (Except.error "expected value at line 1 column 1"),
                  ScanFile.file "\x7b\"name\":\"alice\"\x7d" (Except.ok (Json.obj [("name", Json.str "alice")]))]
          else none)
        "/dust_data/" "users" "name" "alice"
      = .err "expected value at line 1 column 1" :=
  ⟨by decide,
   find_aborts_on_malformed_record (fun s => s) _ "/dust_data/" "users" "name" "alice"
     [ScanFile.file "\x7b\"name\":\"bob\"\x7d" (Except.ok (Json.obj [("name", Json.str "bob")]))]
     [ScanFile.file "\x7b\"name\":\"alice\"\x7d" (Except.ok (Json.obj [("name", Json.str "alice")]))]
     "not json at all" "expected value at line 1 column 1"
     rfl (by decide)⟩

/-- C7: the parser lowercases the pile-name token before it reaches the
storage engine, for CREATE and for FIND alike; consequently two pile spellings
with the same lowercase form parse to the same pile, so they resolve to the
same pile directory. -/
theorem parse_lowercases_pile_for_create_and_find
    (p q d f c : String) (hp : ' ' ∉ p.data) (hq : ' ' ∉ q.data) (hf : ' ' ∉ f.data)
    (hpq : toLowercase q = toLowercase p) :
    Request.parse ("CREATE " ++ p ++ " " ++ d) = .ok (.create (toLowercase p) d)
    ∧ Request.parse ("FIND " ++ p ++ " " ++ f ++ " " ++ c) = .ok (.find (toLowercase p) f c)
    ∧ Request.parse ("CREATE " ++ q ++ " " ++ d) = .ok (.create (toLowercase p) d)
    ∧ Request.parse ("FIND " ++ q ++ " " ++ f ++ " " ++ c) = .ok (.find (toLowercase p) f c) := by
  refine ⟨parse_create_of_tokens p d hp, parse_find_of_tokens p f c hp hf, ?_, ?_⟩
  · rw [parse_create_of_tokens q d hq, hpq]
  · rw [parse_find_of_tokens q f c hq hf, hpq]

/-- Witness for C7 at concrete inputs: `Users` and `users` parse to the same
pile for both verbs. -/
theorem parse_lowercases_pile_witness :
    Request.parse ("CREATE " ++ "users" ++ " " ++ "7b7d") =
      .ok (.create (toLowercase "users") "7b7d")
    ∧ Request.parse ("FIND " ++ "users" ++ " " ++ "name" ++ " " ++ "alice") =
      .ok (.find (toLowercase "users") "name" "alice")
    ∧ Request.parse ("CREATE " ++ "Users" ++ " " ++ "7b7d") =
      .ok (.create (toLowercase "users") "7b7d")
    ∧ Request.parse ("FIND " ++ "Users" ++ " " ++ "name" ++ " " ++ "alice") =
      .ok (.find (toLowercase "users") "name" "alice") :=
  parse_lowercases_pile_for_create_and_find "users" "Users" "7b7d" "name" "alice"
    (by decide) (by decide) (by decide) (by decide)

/-- C8: handling the line `PING` yields the success response with exit code 0
and no message, unchanged filesystem state, for every state and every choice
of the external collaborators; that response serializes to exactly `0 `.
Since the outcome and the returned state do not depend on `s`, repeated PINGs
each yield this same response. -/
theorem ping_always_ok
    (σ : Type) (root ext : String)
    (decode_hex_to_utf8 : String → Except String String) (generate_v4_uuid : String)
    (create_dir_all : σ → String → Except String Unit × σ)
    (fs_write : σ → String → String → Except String Unit × σ)
    (dir_view : σ → String → Option (List ScanFile))
    (enc : String → String) (s : σ) :
    handle_request root ext decode_hex_to_utf8 generate_v4_uuid create_dir_all fs_write
        dir_view enc s "PING" = (.resp (.ok 0 none), s)
    ∧ Response.serialize (.ok 0 none) = "0 " :=
  ⟨rfl, rfl⟩

/-- Decode outcome of one framed line, as a Boolean test: `true` exactly on
transport-level decode failures. -/
def isDecodeFailure : Except String String → Bool
  | .error _ => true
  | .ok _ => false

/-- Counterexample to C9 as stated: a connection that sends the two lines
`CREATE` and `PING` receives zero response lines, not exactly one — handling
the first successfully decoded line panics (see C1/C2), so the task aborts
before writing a response. -/
theorem connection_two_decoded_lines_no_response :
    connection_loop
      (fun line => (handle_request (σ := Unit) "/dust_data/" "json"
          (fun _ => Except.error "decode failure") "uuid-0"
          (fun s _ => (Except.ok (), s)) (fun s _ _ => (Except.ok (), s))
          (fun _ _ => none) (fun s => s) () line).1)
      [Except.ok "CREATE", Except.ok "PING"] = [] := rfl

/-- C9 (amended): transport-level decode failures before the first decoded
line are skipped without a response and without ending the loop; once a line
decodes successfully the handler writes the single response for it — or
nothing, when handling that line panics — and reads no further input; in all
cases a connection receives at most one response line. -/
theorem connection_loop_at_most_one_response
    (handle : String → HandleOutcome)
    (errs : List (Except String String)) (line : String)
    (rest input : List (Except String String))
    (herrs : ∀ x ∈ errs, isDecodeFailure x = true) :
    connection_loop handle (errs ++ Except.ok line :: rest) =
      (match handle line with
       | .resp r => [r.serialize]
       | .crash => [])
    ∧ (connection_loop handle input).length ≤ 1 := by
  constructor
  · induction errs with
    | nil => rfl
    | cons x xs ih =>
      cases x with
      | ok v =>
        have := herrs _ (List.mem_cons_self _ _)
        simp [isDecodeFailure] at this
      | error e =>
        have := ih fun y hy => herrs y (List.mem_cons_of_mem _ hy)
        simpa [connection_loop] using this
  · induction input with
    | nil => simp [connection_loop]
    | cons x xs ih =>
      cases x with
      | ok v => cases h : handle v <;> simp [connection_loop, h]
      | error e => simpa [connection_loop] using ih

/-- Witness for the amended C9 at concrete inputs. -/
theorem connection_loop_at_most_one_response_witness :
    (∀ x ∈ [Except.error "bad frame"], isDecodeFailure x = true)
    ∧ (connection_loop (fun _ => HandleOutcome.resp (.ok 0 none))
          ([Except.error "bad frame"] ++ Except.ok "PING" :: [Except.ok "PING"]) =
        (match (fun (_ : String) => HandleOutcome.resp (.ok 0 none)) "PING" with
         | .resp r => [r.serialize]
         | .crash => [])
      ∧ (connection_loop (fun _ => HandleOutcome.resp (.ok 0 none))
          [Except.ok "PING", Except.ok "PING"]).length ≤ 1) :=
  ⟨by decide,
   connection_loop_at_most_one_response (fun _ => HandleOutcome.resp (.ok 0 none))
     [Except.error "bad frame"] "PING" [Except.ok "PING"] [Except.ok "PING", Except.ok "PING"]
     (by decide)⟩

/-- C10: `create` decodes its hex payload before touching the filesystem.
First conjunct: whenever decoding fails, `create` returns that error with the
state exactly as it was — since the filesystem primitives are arbitrary
parameters here, the unchanged state shows neither was invoked.  Second
conjunct: the generated identifier is returned only if decoding, the directory
creation and the file write all succeed, and it is exactly the result of the
UUID generator. -/
theorem create_decodes_before_any_fs_op
    (σ : Type) (root ext : String)
    (decode_hex_to_utf8 : String → Except String String) (generate_v4_uuid : String)
    (create_dir_all : σ → String → Except String Unit × σ)
    (fs_write : σ → String → String → Except String Unit × σ)
    (pile data : String) (s : σ) (e dec u : String) :
    (decode_hex_to_utf8 data = .error e →
      create root ext decode_hex_to_utf8 generate_v4_uuid create_dir_all fs_write pile data s
        = (.error e, s))
    ∧ (decode_hex_to_utf8 data = .ok dec →
       (create root ext decode_hex_to_utf8 generate_v4_uuid create_dir_all fs_write
          pile data s).1 = .ok u →
       u = generate_v4_uuid
       ∧ (create_dir_all s (root ++ pile)).1 = .ok ()
       ∧ (fs_write (create_dir_all s (root ++ pile)).2
            (root ++ pile ++ "/" ++ generate_v4_uuid ++ "." ++ ext) dec).1 = .ok ()) := by
  constructor
  · intro hdec
    simp [create, hdec]
  · intro hdec hok
    simp only [create, hdec] at hok
    rcases h1 : create_dir_all s (root ++ pile) with ⟨r1, s1⟩
    rw [h1] at hok
    cases r1 with
    | error e1 => simp at hok
    | ok u1 =>
      rcases h2 : fs_write s1 (root ++ pile ++ "/" ++ generate_v4_uuid ++ "." ++ ext) dec
        with ⟨r2, s2⟩
      cases r2 with
      | error e2 => simp [h2] at hok
      | ok u2 =>
        simp [h2] at hok
        exact ⟨hok.symm, rfl, rfl⟩

/-- Concrete filesystem primitives for the C10 witness: the `Nat` state counts
the operations applied to it. -/
def cdaCount : Nat → String → Except String Unit × Nat := fun n _ => (Except.ok (), n + 1)

/-- Concrete write primitive for the C10 witness. -/
def writeCount : Nat → String → String → Except String Unit × Nat :=
  fun n _ _ => (Except.ok (), n + 10)

/-- Concrete always-failing hex decoder for the C10 witness. -/
def decodeFail : String → Except String String := fun _ => Except.error "odd length"

/-- Concrete always-succeeding hex decoder for the C10 witness. -/
def decodeOk : String → Except String String := fun h => Except.ok ("decoded:" ++ h)

/-- Witness for C10 at concrete inputs: a failing decode leaves the state `7`
untouched, and a fully successful run returns the generated identifier with
both filesystem primitives having succeeded. -/
theorem create_decodes_before_any_fs_op_witness :
    create "/dust_data/" "json" decodeFail "uuid-1" cdaCount writeCount "users" "zz" 7
      = (Except.error "odd length", 7)
    ∧ ("uuid-1" = "uuid-1"
       ∧ (cdaCount 7 ("/dust_data/" ++ "users")).1 = Except.ok ()
       ∧ (writeCount (cdaCount 7 ("/dust_data/" ++ "users")).2
            ("/dust_data/" ++ "users" ++ "/" ++ "uuid-1" ++ "." ++ "json")
            "decoded:7b7d").1 = Except.ok ()) :=
  ⟨(create_decodes_before_any_fs_op Nat "/dust_data/" "json" decodeFail "uuid-1"
      cdaCount writeCount "users" "zz" 7 "odd length" "x" "u").1 rfl,
   (create_decodes_before_any_fs_op Nat "/dust_data/" "json" decodeOk "uuid-1"
      cdaCount writeCount "users" "7b7d" 7 "e" "decoded:7b7d" "uuid-1").2 rfl rfl⟩
